import Mathlib

/-!
Verification development for a Kafka-wire-protocol broker façade written in
Rust.  The definitions below are a shallow embedding of the repository's
source files (`src/protocol/primitives.rs`, `src/protocol/request.rs`,
`src/protocol/response.rs`, `src/protocol/cluster_metadata.rs`,
`src/server_async.rs`).  Byte buffers are `List (Fin 256)`; decoders are
cursor-style functions `List Byte → Except DErr (α × List Byte)`; Rust
machine integers are `Int`/`Nat` with explicit two's-complement wrapping.
A Rust `panic!` (an out-of-bounds `copy_to_slice`/`split_to`, an `unwrap`
on `None`/`Err`) is modelled by the distinguished error `DErr.panic` for
decoders and by `Option.none` for the request handlers, as opposed to the
`Result::Err` values the source returns, which are modelled by
`DErr.malformed` / `DErr.unsupportedApiKey`.
-/

/-- A byte, as stored in the Rust `Bytes` buffers. -/
abbrev Byte := Fin 256

/-- Truncate a natural number to a byte (`as u8`). -/
def mkByte (n : Nat) : Byte := ⟨n % 256, Nat.mod_lt _ (by norm_num)⟩

/-- Big-endian value of a byte list (how `get_iNN`/`get_uNN` of the `bytes`
crate assemble fixed-width integers). -/
def bytesToNatBE : List Byte → Nat
  | [] => 0
  | b :: l => b.val * 256 ^ l.length + bytesToNatBE l

/-- Big-endian byte list of width `w` for a natural number, dropping bits
beyond `8*w` (how `put_iNN`/`put_uNN` lay out fixed-width integers). -/
def natToBytesBE : Nat → Nat → List Byte
  | 0, _ => []
  | w + 1, n => mkByte (n / 256 ^ w) :: natToBytesBE w (n % 256 ^ w)

/-- Reinterpret the low `w` bits of a natural number as a signed
two's-complement integer. -/
def toSigned (w : Nat) (n : Nat) : Int :=
  if n % 2 ^ w < 2 ^ (w - 1) then (n % 2 ^ w : Int) else (n % 2 ^ w : Int) - 2 ^ w

/-- Two's-complement bits of an integer in width `w` (Rust `as uN` of an
`iN` value, and the bit pattern `put_iNN` writes). -/
def toBits (w : Nat) (v : Int) : Nat := (v % (2 ^ w : Int)).toNat

/-- `put_i16` of the `bytes` crate. -/
def i16ToBytes (v : Int) : List Byte := natToBytesBE 2 (toBits 16 v)

/-- `put_i32` of the `bytes` crate. -/
def i32ToBytes (v : Int) : List Byte := natToBytesBE 4 (toBits 32 v)

/-- `put_i64` of the `bytes` crate. -/
def i64ToBytes (v : Int) : List Byte := natToBytesBE 8 (toBits 64 v)

/-- `put_u8` of the `bytes` crate. -/
def u8ToBytes (n : Nat) : List Byte := natToBytesBE 1 n

/-- `put_u16` of the `bytes` crate. -/
def u16ToBytes (n : Nat) : List Byte := natToBytesBE 2 n

/-- `put_u32` of the `bytes` crate. -/
def u32ToBytes (n : Nat) : List Byte := natToBytesBE 4 n

/-- Decode errors.  `malformed` stands for the `Err` values the source
returns (`IoError`, `TryGetError`, UTF-8 failures, `TruncatedBatch`,
`CorruptBatch`); `unsupportedApiKey` for `UnsupportedApiKeyError{key}`;
`panic` for a Rust panic (an assertion inside `copy_to_slice`/`split_to`
when the buffer is too short, or an arithmetic overflow surfacing as an
impossible allocation). -/
inductive DErr where
  | malformed : DErr
  | unsupportedApiKey : Int → DErr
  | panic : DErr
deriving DecidableEq, Repr

/-- Read `w` bytes big-endian as a `Nat` (`try_get_uNN`); errors when fewer
than `w` bytes remain. -/
def tryGetBE (w : Nat) (l : List Byte) : Except DErr (Nat × List Byte) :=
  if w ≤ l.length then .ok (bytesToNatBE (l.take w), l.drop w) else .error .malformed

/-- `Buf::try_get_u8`. -/
def tryGetU8 (l : List Byte) : Except DErr (Nat × List Byte) := tryGetBE 1 l

/-- `Buf::try_get_u16`. -/
def tryGetU16 (l : List Byte) : Except DErr (Nat × List Byte) := tryGetBE 2 l

/-- `Buf::try_get_u32`. -/
def tryGetU32 (l : List Byte) : Except DErr (Nat × List Byte) := tryGetBE 4 l

/-- `Buf::try_get_i8`. -/
def tryGetI8 (l : List Byte) : Except DErr (Int × List Byte) :=
  (tryGetBE 1 l).map fun p => (toSigned 8 p.1, p.2)

/-- `Buf::try_get_i16`. -/
def tryGetI16 (l : List Byte) : Except DErr (Int × List Byte) :=
  (tryGetBE 2 l).map fun p => (toSigned 16 p.1, p.2)

/-- `Buf::try_get_i32`. -/
def tryGetI32 (l : List Byte) : Except DErr (Int × List Byte) :=
  (tryGetBE 4 l).map fun p => (toSigned 32 p.1, p.2)

/-- `Buf::try_get_i64`. -/
def tryGetI64 (l : List Byte) : Except DErr (Int × List Byte) :=
  (tryGetBE 8 l).map fun p => (toSigned 64 p.1, p.2)

/-- `Buf::copy_to_slice` into a buffer of length `n`: panics (does not
return an error) when fewer than `n` bytes remain.  `Bytes::split_to` has
the same panic semantics, so this models both. -/
def copyToSlice (n : Nat) (l : List Byte) : Except DErr (List Byte × List Byte) :=
  if n ≤ l.length then .ok (l.take n, l.drop n) else .error .panic

/-- One step of `UnsignedVarInt::from_be_bytes`' loop: OR in the low seven
bits of `b` at `shift` (a `u32` OR, wrapping above bit 31). -/
def uvarintStep (result : Nat) (shift : Nat) (b : Byte) : Nat :=
  (result ||| ((b.val % 128) <<< shift)) % 2 ^ 32

/-- The loop of `UnsignedVarInt::from_be_bytes`: reads bytes until one has
its continuation bit clear; after advancing, `shift > 28` is rejected as
"unsigned varint32 too long". -/
def uvarintDecodeAux : List Byte → Nat → Nat → Except DErr (Nat × List Byte)
  | [], _, _ => .error .malformed
  | b :: rest, result, shift =>
    let result' := uvarintStep result shift b
    if b.val < 128 then .ok (result', rest)
    else if shift + 7 > 28 then .error .malformed
    else uvarintDecodeAux rest result' (shift + 7)

/-- `UnsignedVarInt::from_be_bytes`. -/
def uvarintDecode (l : List Byte) : Except DErr (Nat × List Byte) :=
  uvarintDecodeAux l 0 0

/-- The loop of `UnsignedVarInt::to_be_bytes`, written with an explicit
structural fuel so it reduces in the kernel; `fuel = n` always suffices
because the loop runs once per base-128 digit and `n / 128 < n` whenever
another iteration is needed. -/
def uvarintEncodeAux : Nat → Nat → List Byte
  | 0, n => [mkByte n]
  | fuel + 1, n =>
    if n < 128 then [mkByte n]
    else mkByte (n % 128 + 128) :: uvarintEncodeAux fuel (n / 128)

/-- `UnsignedVarInt::to_be_bytes`: base-128 little-endian groups with a
continuation bit. -/
def uvarintEncode (n : Nat) : List Byte := uvarintEncodeAux n n

/-- Zig-zag decoding used by `VarInt::from_be_bytes`:
`((result >> 1) as i32) ^ (-((result & 1) as i32))`. -/
def zigzagDecode (result : Nat) : Int :=
  toSigned 32 ((result >>> 1) ^^^ (if result % 2 = 1 then 2 ^ 32 - 1 else 0))

/-- `VarInt::from_be_bytes`: the unsigned-varint loop followed by zig-zag
decoding. -/
def varintDecode (l : List Byte) : Except DErr (Int × List Byte) :=
  (uvarintDecodeAux l 0 0).map fun p => (zigzagDecode p.1, p.2)

/-- Zig-zag encoding used by `VarInt::to_be_bytes`:
`((value << 1) ^ (value >> 31)) as u32` on the 32-bit pattern. -/
def zigzagEncode (v : Int) : Nat :=
  ((2 * toBits 32 v) % 2 ^ 32) ^^^ (if 2 ^ 31 ≤ toBits 32 v then 2 ^ 32 - 1 else 0)

/-- `VarInt::to_be_bytes`. -/
def varintEncode (v : Int) : List Byte := uvarintEncode (zigzagEncode v)

/-- Is `b` a UTF-8 continuation byte (`0x80..=0xBF`)? -/
def utf8Cont (b : Byte) : Bool := 0x80 ≤ b.val && b.val ≤ 0xBF

/-- Well-formed UTF-8, exactly what Rust's `String::from_utf8` accepts
(RFC 3629: no surrogates, no overlong forms, max U+10FFFF). -/
def utf8Valid : List Byte → Bool
  | [] => true
  | b :: rest =>
    if b.val ≤ 0x7F then utf8Valid rest
    else if 0xC2 ≤ b.val && b.val ≤ 0xDF then
      match rest with
      | c1 :: r => utf8Cont c1 && utf8Valid r
      | _ => false
    else if b.val = 0xE0 then
      match rest with
      | c1 :: c2 :: r => (0xA0 ≤ c1.val && c1.val ≤ 0xBF) && utf8Cont c2 && utf8Valid r
      | _ => false
    else if (0xE1 ≤ b.val && b.val ≤ 0xEC) || b.val = 0xEE || b.val = 0xEF then
      match rest with
      | c1 :: c2 :: r => utf8Cont c1 && utf8Cont c2 && utf8Valid r
      | _ => false
    else if b.val = 0xED then
      match rest with
      | c1 :: c2 :: r => (0x80 ≤ c1.val && c1.val ≤ 0x9F) && utf8Cont c2 && utf8Valid r
      | _ => false
    else if b.val = 0xF0 then
      match rest with
      | c1 :: c2 :: c3 :: r =>
        (0x90 ≤ c1.val && c1.val ≤ 0xBF) && utf8Cont c2 && utf8Cont c3 && utf8Valid r
      | _ => false
    else if 0xF1 ≤ b.val && b.val ≤ 0xF3 then
      match rest with
      | c1 :: c2 :: c3 :: r => utf8Cont c1 && utf8Cont c2 && utf8Cont c3 && utf8Valid r
      | _ => false
    else if b.val = 0xF4 then
      match rest with
      | c1 :: c2 :: c3 :: r =>
        (0x80 ≤ c1.val && c1.val ≤ 0x8F) && utf8Cont c2 && utf8Cont c3 && utf8Valid r
      | _ => false
    else false
termination_by l => l.length
decreasing_by all_goals (simp_all; try omega)

/-- `NullableString` (`src/protocol/primitives.rs`): an optional UTF-8
string, stored as its byte content (Rust `String` stores UTF-8 bytes and
`len()` is the byte length). -/
structure NullableString where
  value : Option (List Byte)
deriving DecidableEq, Repr

/-- `NullableString::to_be_bytes`: `-1` length for `None`, otherwise the
byte length as an `i16` followed by the bytes. -/
def NullableString.toBeBytes (s : NullableString) : List Byte :=
  match s.value with
  | none => i16ToBytes (-1)
  | some v => i16ToBytes (v.length : Int) ++ v

/-- `NullableString::from_be_bytes`: reads an `i16` length; `-1` is
`None`; otherwise allocates `len as usize` bytes and `copy_to_slice`s into
them (which panics when the buffer is shorter, and for any negative length
other than `-1` the `as usize` cast makes the allocation astronomically
large), then UTF-8-validates. -/
def NullableString.fromBeBytes (l : List Byte) : Except DErr (NullableString × List Byte) := do
  let (len, r) ← tryGetI16 l
  if len = -1 then
    .ok (⟨none⟩, r)
  else
    let (v, r') ← copyToSlice (toBits 64 len) r
    if utf8Valid v then .ok (⟨some v⟩, r') else .error .malformed

/-- `CompactString` (`src/protocol/primitives.rs`): a UTF-8 string stored
as its byte content. -/
structure CompactString where
  value : List Byte
deriving DecidableEq, Repr

/-- `CompactString::from_str`. -/
def CompactString.fromStr (v : List Byte) : CompactString := ⟨v⟩

/-- `CompactString::default` (derived `Default`: empty string). -/
def CompactString.defaultVal : CompactString := ⟨[]⟩

/-- `CompactString::to_be_bytes`: unsigned varint of `len + 1` (a `u32`
cast) followed by the bytes when that varint value is nonzero. -/
def CompactString.toBeBytes (s : CompactString) : List Byte :=
  let len := (s.value.length + 1) % 2 ^ 32
  uvarintEncode len ++ (if 0 < len then s.value else [])

/-- `CompactString::from_be_bytes`: reads an unsigned varint and computes
`value - 1` on the `u32` BEFORE testing for zero, so an encoded length
byte `0x00` wraps to `4294967295` (release mode; debug mode panics on the
underflow) and the subsequent `copy_to_slice` of that many bytes panics.
Only `value - 1 = 0` (encoded `0x01`) yields the empty string. -/
def CompactString.fromBeBytes (l : List Byte) : Except DErr (CompactString × List Byte) := do
  let (u, r) ← uvarintDecode l
  let len := (u + (2 ^ 32 - 1)) % 2 ^ 32
  if len = 0 then
    .ok (⟨[]⟩, r)
  else
    let (v, r') ← copyToSlice len r
    if utf8Valid v then .ok (⟨v⟩, r') else .error .malformed

/-- `CompactArray::<T>::to_be_bytes`: the single byte `0x00` for an empty
array, otherwise the unsigned varint of `len + 1` followed by the encoded
elements. -/
def compactArrayToBeBytes (enc : α → List Byte) (l : List α) : List Byte :=
  if l.isEmpty then [0]
  else uvarintEncode ((l.length + 1) % 2 ^ 32) ++ (l.map enc).flatten

/-- The element-reading loop of `CompactArray::<T>::from_be_bytes`. -/
def compactArrayElems (dec : List Byte → Except DErr (α × List Byte)) :
    Nat → List Byte → Except DErr (List α × List Byte)
  | 0, l => .ok ([], l)
  | n + 1, l => do
    let (x, r) ← dec l
    let (xs, r') ← compactArrayElems dec n r
    .ok (x :: xs, r')

/-- `CompactArray::<T>::from_be_bytes`: an unsigned varint length; `0`
decodes to the empty array (tested BEFORE the `- 1` adjustment, unlike
`CompactString`), otherwise `len - 1` elements. -/
def compactArrayFromBeBytes (dec : List Byte → Except DErr (α × List Byte))
    (l : List Byte) : Except DErr (List α × List Byte) := do
  let (len, r) ← uvarintDecode l
  match len with
  | 0 => .ok ([], r)
  | n + 1 => compactArrayElems dec n r

/-- `INT32::from_be_bytes` (element decoder used for replica/ISR arrays). -/
def int32FromBeBytes (l : List Byte) : Except DErr (Int × List Byte) := tryGetI32 l

/-- `ApiKey` (`src/protocol/primitives.rs`).  The source enum declares only
`ApiVersions = 18` and `DescribeTopicPartitions = 75`; the `fetch` variant
(key 1 per the spec's glossary) is modelled from the spec because
`src/protocol/request.rs` and `src/server_async.rs` pattern-match on
`ApiKey::Fetch`, which the enum as committed does not declare. -/
inductive ApiKey where
  | apiVersions : ApiKey
  | describeTopicPartitions : ApiKey
  | fetch : ApiKey
deriving DecidableEq, Repr

/-- The `i16` wire code of an `ApiKey`, as written by `ApiKey::to_be_bytes`
(whose match in the source covers only 18 and 75; Fetch = 1 is modelled
from the spec). -/
def ApiKey.code : ApiKey → Int
  | .apiVersions => 18
  | .describeTopicPartitions => 75
  | .fetch => 1

/-- `ApiKey::to_be_bytes`. -/
def ApiKey.toBeBytes (k : ApiKey) : List Byte := i16ToBytes k.code

/-- `ApiKey::from_be_bytes`, exactly as committed in
`src/protocol/primitives.rs` lines 31-41: accepts `18` and `75` and fails
with `UnsupportedApiKeyError{key}` on every other key, including `1`. -/
def ApiKey.fromBeBytes (l : List Byte) : Except DErr (ApiKey × List Byte) := do
  let (key, r) ← tryGetI16 l
  match key with
  | 18 => .ok (.apiVersions, r)
  | 75 => .ok (.describeTopicPartitions, r)
  | _ => .error (.unsupportedApiKey key)

/-- A UUID: 16 raw bytes (`uuid::Uuid`). -/
abbrev Uuid := List Byte

/-- `Uuid::nil()`: sixteen zero bytes. -/
def nilUuid : Uuid := List.replicate 16 (0 : Byte)

/-- The CRC-32C (Castagnoli) round on one bit: reflected polynomial
`0x82F63B78`. -/
def crc32cRound (c : Nat) : Nat :=
  if c % 2 = 1 then (c / 2) ^^^ 0x82F63B78 else c / 2

/-- Fold one byte into a CRC-32C state. -/
def crc32cByte (c : Nat) (b : Byte) : Nat := crc32cRound^[8] (c ^^^ b.val)

/-- `crc32c::crc32c` over a byte buffer: init `0xFFFFFFFF`, reflected
update, final XOR. -/
def crc32c (l : List Byte) : Nat := (l.foldl crc32cByte 0xFFFFFFFF) ^^^ 0xFFFFFFFF

/-- `FeatureRecordValue` (`src/protocol/cluster_metadata.rs`). -/
structure FeatureRecordValue where
  name : List Byte
  featureLevel : Int
  taggedFieldsCount : Nat
deriving DecidableEq, Repr

/-- `TopicRecordValue` (`src/protocol/cluster_metadata.rs`). -/
structure TopicRecordValue where
  name : List Byte
  topicUuid : Uuid
  taggedFieldsCount : Nat
deriving DecidableEq, Repr

/-- `PartitionRecordValue` (`src/protocol/cluster_metadata.rs`). -/
structure PartitionRecordValue where
  partitionId : Int
  topicUuid : Uuid
  replicaArray : List Int
  inSyncReplicaArray : List Int
  removingReplicasArray : List Int
  addingReplicasArray : List Int
  leader : Int
  leaderEpoch : Int
  partitionEpoch : Int
  directoriesArray : List Uuid
  taggedFieldsCount : Nat
deriving DecidableEq, Repr

/-- `RecordValueByType` (`src/protocol/cluster_metadata.rs`). -/
inductive RecordValueByType where
  | feature : FeatureRecordValue → RecordValueByType
  | topic : TopicRecordValue → RecordValueByType
  | partition : PartitionRecordValue → RecordValueByType
  | unknown : List Byte → RecordValueByType
deriving DecidableEq, Repr

/-- `RecordValueByType::as_topic_record`. -/
def RecordValueByType.asTopicRecord : RecordValueByType → Option TopicRecordValue
  | .topic tv => some tv
  | _ => none

/-- `RecordValue` (`src/protocol/cluster_metadata.rs`). -/
structure RecordValue where
  frameVersion : Int
  recordType : Int
  version : Int
  value : RecordValueByType
deriving DecidableEq, Repr

/-- `Record` (`src/protocol/cluster_metadata.rs`).  `record_length` is the
parsed `VarInt` value. -/
structure Record where
  recordLength : Int
  attributes : Nat
  timestampDelta : Int
  offsetDelta : Int
  key : List Byte
  recordValue : RecordValue
  headersArrayCount : Nat
deriving DecidableEq, Repr

/-- `Batch` (`src/protocol/cluster_metadata.rs`). -/
structure Batch where
  baseOffset : Int
  batchLength : Int
  partitionLeaderEpoch : Int
  magicByte : Nat
  crc : Nat
  attributes : Nat
  lastOffsetDelta : Int
  baseTimestamp : Int
  maxTimestamp : Int
  producerId : Int
  producerEpoch : Int
  baseSequence : Int
  records : List Record
deriving DecidableEq, Repr

/-- `FeatureRecordValue::try_from`: compact-string name, `i16` level,
unsigned-varint tagged-field count. -/
def FeatureRecordValue.tryFrom (l : List Byte) :
    Except DErr (FeatureRecordValue × List Byte) := do
  let (name, r1) ← CompactString.fromBeBytes l
  let (level, r2) ← tryGetI16 r1
  let (tagged, r3) ← uvarintDecode r2
  .ok (⟨name.value, level, tagged⟩, r3)

/-- `TopicRecordValue::try_from`: compact-string name, 16 UUID bytes
(`split_to(16)` panics when fewer remain), unsigned-varint tagged-field
count. -/
def TopicRecordValue.tryFrom (l : List Byte) :
    Except DErr (TopicRecordValue × List Byte) := do
  let (name, r1) ← CompactString.fromBeBytes l
  let (uuid, r2) ← copyToSlice 16 r1
  let (tagged, r3) ← uvarintDecode r2
  .ok (⟨name.value, uuid, tagged⟩, r3)

/-- The directory-UUID loop of `PartitionRecordValue::try_from`. -/
def partitionDirectories : Nat → List Byte → Except DErr (List Uuid × List Byte)
  | 0, l => .ok ([], l)
  | n + 1, l => do
    let (uuid, r) ← copyToSlice 16 l
    let (rest, r') ← partitionDirectories n r
    .ok (uuid :: rest, r')

/-- `PartitionRecordValue::try_from`.  The directory count is read as an
unsigned varint and decremented on the `u32` without a zero test, so an
encoded `0x00` wraps to `4294967295` directories (whose reads then
panic). -/
def PartitionRecordValue.tryFrom (l : List Byte) :
    Except DErr (PartitionRecordValue × List Byte) := do
  let (partitionId, r1) ← tryGetI32 l
  let (topicUuid, r2) ← copyToSlice 16 r1
  let (replicas, r3) ← compactArrayFromBeBytes int32FromBeBytes r2
  let (isr, r4) ← compactArrayFromBeBytes int32FromBeBytes r3
  let (removing, r5) ← compactArrayFromBeBytes int32FromBeBytes r4
  let (adding, r6) ← compactArrayFromBeBytes int32FromBeBytes r5
  let (leader, r7) ← tryGetI32 r6
  let (leaderEpoch, r8) ← tryGetI32 r7
  let (partitionEpoch, r9) ← tryGetI32 r8
  let (dirLenRaw, r10) ← uvarintDecode r9
  let dirLen := (dirLenRaw + (2 ^ 32 - 1)) % 2 ^ 32
  let (directories, r11) ← partitionDirectories dirLen r10
  let (tagged, r12) ← uvarintDecode r11
  .ok (⟨partitionId, topicUuid, replicas, isr, removing, adding, leader, leaderEpoch,
        partitionEpoch, directories, tagged⟩, r12)

/-- `RecordValueByType::try_from`: dispatch on the record type; unknown
types keep the remaining bytes opaque (without consuming them). -/
def RecordValueByType.tryFrom (l : List Byte) (recordType : Int) :
    Except DErr (RecordValueByType × List Byte) :=
  if recordType = 12 then
    (FeatureRecordValue.tryFrom l).map fun p => (.feature p.1, p.2)
  else if recordType = 2 then
    (TopicRecordValue.tryFrom l).map fun p => (.topic p.1, p.2)
  else if recordType = 3 then
    (PartitionRecordValue.tryFrom l).map fun p => (.partition p.1, p.2)
  else
    .ok (.unknown l, l)

/-- `RecordValue::try_from`: frame version, record type, version, then the
typed payload. -/
def RecordValue.tryFrom (l : List Byte) : Except DErr (RecordValue × List Byte) := do
  let (frameVersion, r1) ← tryGetI8 l
  let (recordType, r2) ← tryGetI8 r1
  let (version, r3) ← tryGetI8 r2
  let (value, r4) ← RecordValueByType.tryFrom r3 recordType
  .ok (⟨frameVersion, recordType, version, value⟩, r4)

/-- `Record::try_from`.  A negative key/value length means absent; the
value bytes are `split_to` into a sub-buffer and the `RecordValue` parsed
from it, discarding whatever the value parser does not consume. -/
def Record.tryFrom (l : List Byte) : Except DErr (Record × List Byte) := do
  let (recordLength, r1) ← varintDecode l
  let (attributes, r2) ← tryGetU8 r1
  let (timestampDelta, r3) ← varintDecode r2
  let (offsetDelta, r4) ← varintDecode r3
  let (keyLength, r5) ← varintDecode r4
  let (key, r6) ←
    if keyLength < 0 then .ok (([] : List Byte), r5)
    else copyToSlice keyLength.toNat r5
  let (valueLength, r7) ← varintDecode r6
  let (contents, r8) ←
    if valueLength < 0 then .ok (([] : List Byte), r7)
    else copyToSlice valueLength.toNat r7
  let (recordValue, _) ← RecordValue.tryFrom contents
  let (headers, r9) ← uvarintDecode r8
  .ok (⟨recordLength, attributes, timestampDelta, offsetDelta, key, recordValue,
        headers⟩, r9)

/-- The `for _ in 0..records_length` loop of `Batch::try_from` (a negative
count iterates zero times). -/
def batchRecords : Nat → List Byte → Except DErr (List Record × List Byte)
  | 0, l => .ok ([], l)
  | n + 1, l => do
    let (record, r) ← Record.tryFrom l
    let (rest, r') ← batchRecords n r
    .ok (record :: rest, r')

/-- `crc_checksum` (`src/protocol/cluster_metadata.rs`): read the stored
`u32`, compare it with CRC-32C of everything that remains (without
consuming it), and fail on mismatch. -/
def crcChecksum (l : List Byte) : Except DErr (Nat × List Byte) := do
  let (crc, r) ← tryGetU32 l
  if crc32c r = crc then .ok (crc32c r, r) else .error .malformed

/-- `Batch::try_from` (`src/protocol/cluster_metadata.rs` lines 165-224):
base offset, batch length, then a `split_to(batch_length as usize)`
sub-buffer holding the batch payload; leftover payload bytes after the
records are discarded. -/
def Batch.tryFrom (l : List Byte) : Except DErr (Batch × List Byte) := do
  let (baseOffset, r1) ← tryGetI64 l
  let (batchLength, r2) ← tryGetI32 r1
  let (sub, rest) ← copyToSlice (toBits 64 batchLength) r2
  let (partitionLeaderEpoch, s1) ← tryGetI32 sub
  let (magicByte, s2) ← tryGetU8 s1
  let (crc, s3) ← crcChecksum s2
  let (attributes, s4) ← tryGetU16 s3
  let (lastOffsetDelta, s5) ← tryGetI32 s4
  let (baseTimestamp, s6) ← tryGetI64 s5
  let (maxTimestamp, s7) ← tryGetI64 s6
  let (producerId, s8) ← tryGetI64 s7
  let (producerEpoch, s9) ← tryGetI16 s8
  let (baseSequence, s10) ← tryGetI32 s9
  let (recordsLength, s11) ← tryGetI32 s10
  let (records, _) ← batchRecords recordsLength.toNat s11
  .ok (⟨baseOffset, batchLength, partitionLeaderEpoch, magicByte, crc, attributes,
        lastOffsetDelta, baseTimestamp, maxTimestamp, producerId, producerEpoch,
        baseSequence, records⟩, rest)

/-- `FeatureRecordValue`'s `ToBytes`. -/
def FeatureRecordValue.toBeBytes (v : FeatureRecordValue) : List Byte :=
  CompactString.toBeBytes ⟨v.name⟩ ++ i16ToBytes v.featureLevel ++
    uvarintEncode v.taggedFieldsCount

/-- `TopicRecordValue`'s `ToBytes`. -/
def TopicRecordValue.toBeBytes (v : TopicRecordValue) : List Byte :=
  CompactString.toBeBytes ⟨v.name⟩ ++ v.topicUuid ++ uvarintEncode v.taggedFieldsCount

/-- `PartitionRecordValue`'s `ToBytes`. -/
def PartitionRecordValue.toBeBytes (v : PartitionRecordValue) : List Byte :=
  i32ToBytes v.partitionId ++ v.topicUuid ++
    compactArrayToBeBytes i32ToBytes v.replicaArray ++
    compactArrayToBeBytes i32ToBytes v.inSyncReplicaArray ++
    compactArrayToBeBytes i32ToBytes v.removingReplicasArray ++
    compactArrayToBeBytes i32ToBytes v.addingReplicasArray ++
    i32ToBytes v.leader ++ i32ToBytes v.leaderEpoch ++ i32ToBytes v.partitionEpoch ++
    uvarintEncode ((v.directoriesArray.length + 1) % 2 ^ 32) ++
    v.directoriesArray.flatten ++ uvarintEncode v.taggedFieldsCount

/-- `RecordValueByType`'s `ToBytes`. -/
def RecordValueByType.toBeBytes : RecordValueByType → List Byte
  | .feature v => v.toBeBytes
  | .topic v => v.toBeBytes
  | .partition v => v.toBeBytes
  | .unknown bs => bs

/-- `RecordValue`'s `ToBytes`. -/
def RecordValue.toBeBytes (v : RecordValue) : List Byte :=
  natToBytesBE 1 (toBits 8 v.frameVersion) ++ natToBytesBE 1 (toBits 8 v.recordType) ++
    natToBytesBE 1 (toBits 8 v.version) ++ v.value.toBeBytes

/-- `Record::to_be_bytes` (`src/protocol/cluster_metadata.rs` lines
289-304).  Note: it re-encodes the key length from `key.len()` and writes
the record value with NO `value_length` prefix. -/
def Record.toBeBytes (r : Record) : List Byte :=
  varintEncode r.recordLength ++ u8ToBytes r.attributes ++
    varintEncode r.timestampDelta ++ varintEncode r.offsetDelta ++
    varintEncode (toSigned 32 (r.key.length % 2 ^ 32)) ++ r.key ++
    r.recordValue.toBeBytes ++ uvarintEncode r.headersArrayCount

/-- `Batch::to_be_bytes` (`src/protocol/cluster_metadata.rs` lines
246-270).  Writes the stored `batch_length` and `crc` verbatim and
`records.len()` as the record count. -/
def Batch.toBeBytes (b : Batch) : List Byte :=
  i64ToBytes b.baseOffset ++ i32ToBytes b.batchLength ++
    i32ToBytes b.partitionLeaderEpoch ++ u8ToBytes b.magicByte ++
    u32ToBytes b.crc ++ u16ToBytes b.attributes ++ i32ToBytes b.lastOffsetDelta ++
    i64ToBytes b.baseTimestamp ++ i64ToBytes b.maxTimestamp ++
    i64ToBytes b.producerId ++ i16ToBytes b.producerEpoch ++
    i32ToBytes b.baseSequence ++ i32ToBytes (toSigned 32 (b.records.length % 2 ^ 32)) ++
    (b.records.map Record.toBeBytes).flatten

/-- `ClusterMetadata` (`src/protocol/cluster_metadata.rs`): the
`BTreeMap<i64, Batch>` index, modelled as its value sequence in ascending
`base_offset` order (all lookups below iterate `batches.values()` in that
order). -/
structure ClusterMetadata where
  batches : List Batch
deriving DecidableEq, Repr

/-- `Batch::find_topic_records_by_topic`: the records whose value is a
topic record with the given name. -/
def Batch.findTopicRecordsByTopic (b : Batch) (topic : List Byte) : List Record :=
  b.records.filter fun record =>
    match record.recordValue.value with
    | .topic tv => tv.name = topic
    | _ => false

/-- `Batch::find_topic_records_by_id`. -/
def Batch.findTopicRecordsById (b : Batch) (topicId : Uuid) : List Record :=
  b.records.filter fun record =>
    match record.recordValue.value with
    | .topic tv => tv.topicUuid = topicId
    | _ => false

/-- `Batch::find_partition_records_by_topic_uuid`. -/
def Batch.findPartitionRecordsByTopicUuid (b : Batch) (topicUuid : Uuid) :
    List PartitionRecordValue :=
  b.records.filterMap fun record =>
    match record.recordValue.value with
    | .partition pv => if pv.topicUuid = topicUuid then some pv else none
    | _ => none

/-- `ClusterMetadata::find_topic_records_by_topic`: flat-map over the
batches in index order. -/
def ClusterMetadata.findTopicRecordsByTopic (m : ClusterMetadata) (topic : List Byte) :
    List Record :=
  (m.batches.map fun b => b.findTopicRecordsByTopic topic).flatten

/-- `ClusterMetadata::find_topic_records_by_id`. -/
def ClusterMetadata.findTopicRecordsById (m : ClusterMetadata) (topicId : Uuid) :
    List Record :=
  (m.batches.map fun b => b.findTopicRecordsById topicId).flatten

/-- `ClusterMetadata::find_partition_records_by_topic_uuid`. -/
def ClusterMetadata.findPartitionRecordsByTopicUuid (m : ClusterMetadata)
    (topicUuid : Uuid) : List PartitionRecordValue :=
  (m.batches.map fun b => b.findPartitionRecordsByTopicUuid topicUuid).flatten

/-- Modelled from the spec: `find_partition_record_ids_by_topic_uuid` is
called by `src/server_async.rs` but missing from
`src/protocol/cluster_metadata.rs`; per §4.3 it returns
`find_partition_records_by_topic_uuid(uuid)` projected to the partition
ids. -/
def ClusterMetadata.findPartitionRecordIdsByTopicUuid (m : ClusterMetadata)
    (topicUuid : Uuid) : List Int :=
  (m.findPartitionRecordsByTopicUuid topicUuid).map PartitionRecordValue.partitionId

/-- `request::Topic` (`src/protocol/request.rs`): a requested topic name
with its tag buffer. -/
structure Request.Topic where
  topic : CompactString
  tag : List NullableString
deriving DecidableEq, Repr

/-- `request::Topic::from_be_bytes`. -/
def Request.Topic.fromBeBytes (l : List Byte) : Except DErr (Request.Topic × List Byte) := do
  let (topic, r1) ← CompactString.fromBeBytes l
  let (tag, r2) ← compactArrayFromBeBytes NullableString.fromBeBytes r1
  .ok (⟨topic, tag⟩, r2)

/-- `ApiVersionsRequestV4` (`src/protocol/request.rs`). -/
structure ApiVersionsRequestV4 where
  clientSoftwareName : CompactString
  clientSoftwareVersion : CompactString
  tag : List NullableString
deriving DecidableEq, Repr

/-- `DescribeTopicPartitionsRequestV0` (`src/protocol/request.rs`).  The
`response_partiotion_limit` field name keeps the source's spelling. -/
structure DescribeTopicPartitionsRequestV0 where
  topics : List Request.Topic
  responsePartiotionLimit : Int
  cursor : Nat
  tag : List NullableString
deriving DecidableEq, Repr

/-- `DescribeTopicPartitionsRequestV0::default()`: no topics, limit 0,
cursor `u8::MAX`. -/
def DescribeTopicPartitionsRequestV0.defaultVal : DescribeTopicPartitionsRequestV0 :=
  ⟨[], 0, 255, []⟩

/-- `DescribeTopicPartitionsRequestV0::topic_names`. -/
def DescribeTopicPartitionsRequestV0.topicNames (r : DescribeTopicPartitionsRequestV0) :
    List (List Byte) :=
  r.topics.map fun t => t.topic.value

/-- `request::Partition` (`src/protocol/request.rs`): one requested fetch
partition. -/
structure Request.Partition where
  partition : Int
  currentLeaderEpoch : Int
  fetchOffset : Int
  lastFetchedEpoch : Int
  logStartOffset : Int
  partitionMaxBytes : Int
deriving DecidableEq, Repr

/-- `TopicsPartitions` (`src/protocol/request.rs`): one requested fetch
topic. -/
structure TopicsPartitions where
  topicId : Uuid
  partitions : List Request.Partition
  tag : List NullableString
deriving DecidableEq, Repr

/-- `TopicsPartitions::default()`: nil topic id, no partitions. -/
def TopicsPartitions.defaultVal : TopicsPartitions := ⟨nilUuid, [], []⟩

/-- `ForgottenTopic` (`src/protocol/request.rs`). -/
structure ForgottenTopic where
  topicId : Uuid
  partitions : Int
deriving DecidableEq, Repr

/-- `FetchRequestV16` (`src/protocol/request.rs`). -/
structure FetchRequestV16 where
  maxWaitMs : Int
  minBytes : Int
  maxBytes : Int
  isolationLevel : Int
  sessionId : Int
  sessionEpoch : Int
  topics : List TopicsPartitions
  forgottenTopics : List ForgottenTopic
  rackId : CompactString
deriving DecidableEq, Repr

/-- `FetchRequestV16::default()`. -/
def FetchRequestV16.defaultVal : FetchRequestV16 :=
  ⟨500, 1, 1048576, 0, -1, -1, [], [], CompactString.defaultVal⟩

/-- `RequestHeaderV2` (`src/protocol/request.rs`). -/
structure RequestHeaderV2 where
  requestApiKey : ApiKey
  requestApiVersion : Int
  correlationId : Int
  clientId : NullableString
  tag : List NullableString
deriving DecidableEq, Repr

/-- `RequestHeaderV2::from_be_bytes`: api key, api version, correlation
id, client id, tag buffer.  An unknown `request_api_key` fails here with
`UnsupportedApiKey{key}`; the `request_api_version` is read as a plain
`i16` and never rejected. -/
def RequestHeaderV2.fromBeBytes (l : List Byte) :
    Except DErr (RequestHeaderV2 × List Byte) := do
  let (requestApiKey, r1) ← ApiKey.fromBeBytes l
  let (requestApiVersion, r2) ← tryGetI16 r1
  let (correlationId, r3) ← tryGetI32 r2
  let (clientId, r4) ← NullableString.fromBeBytes r3
  let (tag, r5) ← compactArrayFromBeBytes NullableString.fromBeBytes r4
  .ok (⟨requestApiKey, requestApiVersion, correlationId, clientId, tag⟩, r5)

/-- `RequestBody` (`src/protocol/request.rs`). -/
inductive RequestBody where
  | apiVersionsRequestV4 : ApiVersionsRequestV4 → RequestBody
  | describeTopicPartitionsRequestV0 : DescribeTopicPartitionsRequestV0 → RequestBody
  | fetchRequestV16 : FetchRequestV16 → RequestBody
deriving DecidableEq, Repr

/-- `RequestBody::as_describe_topic_partitions_request_v0`. -/
def RequestBody.asDescribeTopicPartitionsRequestV0 :
    RequestBody → Option DescribeTopicPartitionsRequestV0
  | .describeTopicPartitionsRequestV0 v => some v
  | _ => none

/-- `RequestBody::as_fetch_request_v16`. -/
def RequestBody.asFetchRequestV16 : RequestBody → Option FetchRequestV16
  | .fetchRequestV16 v => some v
  | _ => none

/-- `RequestV0` (`src/protocol/request.rs`). -/
structure RequestV0 where
  messageSize : Int
  header : RequestHeaderV2
  body : RequestBody
deriving DecidableEq, Repr

/-- `ErrorCode` (`src/protocol/response.rs`). -/
inductive ErrorCode where
  | none : ErrorCode
  | unknownServerError : ErrorCode
  | unsupportedVersion : ErrorCode
  | unknownTopicOrPartition : ErrorCode
  | unknownTopic : ErrorCode
deriving DecidableEq, Repr

/-- The numeric discriminant written by `error_code as i16`. -/
def ErrorCode.code : ErrorCode → Int
  | .none => 0
  | .unknownServerError => -1
  | .unsupportedVersion => 35
  | .unknownTopicOrPartition => 3
  | .unknownTopic => 100

/-- `ApiVersion` (`src/protocol/response.rs`): one advertised API range. -/
structure ApiVersion where
  apiKey : ApiKey
  minVersion : Int
  maxVersion : Int
  tag : List NullableString
deriving DecidableEq, Repr

/-- `ApiVersion`'s `ToBytes`. -/
def ApiVersion.toBeBytes (v : ApiVersion) : List Byte :=
  v.apiKey.toBeBytes ++ i16ToBytes v.minVersion ++ i16ToBytes v.maxVersion ++
    compactArrayToBeBytes NullableString.toBeBytes v.tag

/-- `ApiVersionsResponseBodyV4` (`src/protocol/response.rs`). -/
structure ApiVersionsResponseBodyV4 where
  errorCode : ErrorCode
  apiVersions : List ApiVersion
  throttleTimeMs : Int
  tag : List NullableString
deriving DecidableEq, Repr

/-- `ApiVersionsResponseBodyV4`'s `ToBytes`. -/
def ApiVersionsResponseBodyV4.toBeBytes (b : ApiVersionsResponseBodyV4) : List Byte :=
  i16ToBytes b.errorCode.code ++ compactArrayToBeBytes ApiVersion.toBeBytes b.apiVersions ++
    i32ToBytes b.throttleTimeMs ++ compactArrayToBeBytes NullableString.toBeBytes b.tag

/-- `response::Partition` (`src/protocol/response.rs`): one
DescribeTopicPartitions partition result. -/
structure Response.Partition where
  errorCode : ErrorCode
  partitionIndex : Int
  leader : Int
  leaderEpoch : Int
  replicaNodes : List Int
  isrNodes : List Int
  eligibleLeaderReplicas : Int
  lastKnownElr : Nat
  offlineReplicas : Nat
  tagBuffer : Nat
deriving DecidableEq, Repr

/-- `response::Partition`'s `ToBytes`. -/
def Response.Partition.toBeBytes (p : Response.Partition) : List Byte :=
  i16ToBytes p.errorCode.code ++ i32ToBytes p.partitionIndex ++ i32ToBytes p.leader ++
    i32ToBytes p.leaderEpoch ++ compactArrayToBeBytes i32ToBytes p.replicaNodes ++
    compactArrayToBeBytes i32ToBytes p.isrNodes ++
    varintEncode p.eligibleLeaderReplicas ++ u8ToBytes p.lastKnownElr ++
    u8ToBytes p.offlineReplicas ++ u8ToBytes p.tagBuffer

/-- `impl From<&PartitionRecordValue> for Partition`
(`src/protocol/response.rs` lines 364-379): error `None`, the partition's
id, leader, leader epoch and replica/ISR arrays verbatim, and zeros for
`eligible_leader_replicas`, `last_known_elr`, `offline_replicas` and the
tag buffer. -/
def Response.Partition.fromPartitionRecord (p : PartitionRecordValue) :
    Response.Partition :=
  ⟨.none, p.partitionId, p.leader, p.leaderEpoch, p.replicaArray,
    p.inSyncReplicaArray, 0, 0, 0, 0⟩

/-- `response::Topic` (`src/protocol/response.rs`): one
DescribeTopicPartitions topic result. -/
structure Response.Topic where
  errorCode : ErrorCode
  name : CompactString
  id : Uuid
  isInternal : Bool
  partitions : List Response.Partition
  authorizedOperations : Nat
  tag : List NullableString
deriving DecidableEq, Repr

/-- `Topic::from_unknown_topic` (`src/protocol/response.rs` lines
272-283): `UnknownTopicOrPartition`, the requested name, nil UUID, not
internal, no partitions, no authorized operations. -/
def Response.Topic.fromUnknownTopic (topicName : List Byte) : Response.Topic :=
  ⟨.unknownTopicOrPartition, CompactString.fromStr topicName, nilUuid, false, [], 0, []⟩

/-- `response::Topic`'s `ToBytes`. -/
def Response.Topic.toBeBytes (t : Response.Topic) : List Byte :=
  i16ToBytes t.errorCode.code ++ t.name.toBeBytes ++ t.id ++
    u8ToBytes (if t.isInternal then 1 else 0) ++
    compactArrayToBeBytes Response.Partition.toBeBytes t.partitions ++
    u32ToBytes t.authorizedOperations ++
    compactArrayToBeBytes NullableString.toBeBytes t.tag

/-- `DescribeTopicPartiotionsResponseBodyV0` (`src/protocol/response.rs`;
the name keeps the source's spelling). -/
structure DescribeTopicPartiotionsResponseBodyV0 where
  throttleTimeMs : Int
  topics : List Response.Topic
  nextCursor : Nat
  tag : List NullableString
deriving DecidableEq, Repr

/-- `DescribeTopicPartiotionsResponseBodyV0`'s `ToBytes`. -/
def DescribeTopicPartiotionsResponseBodyV0.toBeBytes
    (b : DescribeTopicPartiotionsResponseBodyV0) : List Byte :=
  i32ToBytes b.throttleTimeMs ++ compactArrayToBeBytes Response.Topic.toBeBytes b.topics ++
    u8ToBytes b.nextCursor ++ compactArrayToBeBytes NullableString.toBeBytes b.tag

/-- `AbortedTransaction` (`src/protocol/response.rs`). -/
structure AbortedTransaction where
  producerId : Int
  firstOffset : Int
deriving DecidableEq, Repr

/-- `AbortedTransaction`'s `ToBytes`. -/
def AbortedTransaction.toBeBytes (a : AbortedTransaction) : List Byte :=
  i64ToBytes a.producerId ++ i64ToBytes a.firstOffset

/-- `CompactRecords`: the raw record-batch bytes carried in a fetch
response.  The type is referenced from `src/protocol/response.rs` but its
definition is missing from `src/`; modelled as the raw byte list, with
`Default` = empty. -/
abbrev CompactRecords := List Byte

/-- Modelled from the spec: `CompactRecords`' `ToBytes` is missing from
`src/`; per §4.2 `COMPACT_RECORDS` is an unsigned-varint byte length
followed by that many opaque bytes, `+1` convention. -/
def CompactRecords.toBeBytes (r : CompactRecords) : List Byte :=
  uvarintEncode ((r.length + 1) % 2 ^ 32) ++ r

/-- `FetchResponsePartition` (`src/protocol/response.rs`; the
`prefrred_read_replica` field keeps the source's spelling). -/
structure FetchResponsePartition where
  partitionIndex : Int
  errorCode : ErrorCode
  highWatermark : Int
  lastStableOffset : Int
  logStartOffset : Int
  abortedTransactions : List AbortedTransaction
  prefrredReadReplica : Int
  records : CompactRecords
  tag : List NullableString
deriving DecidableEq, Repr

/-- `FetchResponsePartition`'s `ToBytes`. -/
def FetchResponsePartition.toBeBytes (p : FetchResponsePartition) : List Byte :=
  i32ToBytes p.partitionIndex ++ i16ToBytes p.errorCode.code ++
    i64ToBytes p.highWatermark ++ i64ToBytes p.lastStableOffset ++
    i64ToBytes p.logStartOffset ++
    compactArrayToBeBytes AbortedTransaction.toBeBytes p.abortedTransactions ++
    i32ToBytes p.prefrredReadReplica ++ CompactRecords.toBeBytes p.records ++
    compactArrayToBeBytes NullableString.toBeBytes p.tag

/-- `FetchResponseTopic` (`src/protocol/response.rs`). -/
structure FetchResponseTopic where
  topicId : Uuid
  partitions : List FetchResponsePartition
  tag : List NullableString
deriving DecidableEq, Repr

/-- `FetchResponseTopic`'s `ToBytes`. -/
def FetchResponseTopic.toBeBytes (t : FetchResponseTopic) : List Byte :=
  t.topicId ++ compactArrayToBeBytes FetchResponsePartition.toBeBytes t.partitions ++
    compactArrayToBeBytes NullableString.toBeBytes t.tag

/-- `FetchResponseBodyV16` (`src/protocol/response.rs`). -/
structure FetchResponseBodyV16 where
  throttleTimeMs : Int
  errorCode : ErrorCode
  sessionId : Int
  responses : List FetchResponseTopic
  tag : List NullableString
deriving DecidableEq, Repr

/-- `FetchResponseBodyV16::default()`: all zeros, no responses. -/
def FetchResponseBodyV16.defaultVal : FetchResponseBodyV16 := ⟨0, .none, 0, [], []⟩

/-- `FetchResponseBodyV16::with_record_for_topic` (`src/protocol/response.rs`
lines 391-414): one topic entry with ONE partition entry whose
`partition_index`, watermarks, offsets and preferred read replica are all
hard-coded to zero and whose records are the given bytes. -/
def FetchResponseBodyV16.withRecordForTopic (topicId : Uuid) (recordBatch : CompactRecords) :
    FetchResponseBodyV16 :=
  ⟨0, .none, 0, [⟨topicId, [⟨0, .none, 0, 0, 0, [], 0, recordBatch, []⟩], []⟩], []⟩

/-- `FetchResponseBodyV16::unknown_topic`: one partition entry with
`UnknownTopic` and empty records. -/
def FetchResponseBodyV16.unknownTopic (topicId : Uuid) : FetchResponseBodyV16 :=
  ⟨0, .none, 0, [⟨topicId, [⟨0, .unknownTopic, 0, 0, 0, [], 0, [], []⟩], []⟩], []⟩

/-- `FetchResponseBodyV16::empty_topic`: one partition entry with
`None` and empty records. -/
def FetchResponseBodyV16.emptyTopic (topicId : Uuid) : FetchResponseBodyV16 :=
  ⟨0, .none, 0, [⟨topicId, [⟨0, .none, 0, 0, 0, [], 0, [], []⟩], []⟩], []⟩

/-- `FetchResponseBodyV16`'s `ToBytes`. -/
def FetchResponseBodyV16.toBeBytes (b : FetchResponseBodyV16) : List Byte :=
  i32ToBytes b.throttleTimeMs ++ i16ToBytes b.errorCode.code ++ i32ToBytes b.sessionId ++
    compactArrayToBeBytes FetchResponseTopic.toBeBytes b.responses ++
    compactArrayToBeBytes NullableString.toBeBytes b.tag

/-- `ResponseHeaderV0` (`src/protocol/response.rs`): correlation id only. -/
structure ResponseHeaderV0 where
  correlationId : Int
deriving DecidableEq, Repr

/-- `ResponseHeaderV1` (`src/protocol/response.rs`): correlation id plus a
tag buffer (`ResponseHeaderV1::new` leaves it empty). -/
structure ResponseHeaderV1 where
  correlationId : Int
  tag : List NullableString
deriving DecidableEq, Repr

/-- `ResponseHeader` (`src/protocol/response.rs`). -/
inductive ResponseHeader where
  | v0 : ResponseHeaderV0 → ResponseHeader
  | v1 : ResponseHeaderV1 → ResponseHeader
deriving DecidableEq, Repr

/-- The correlation id carried by either response-header version. -/
def ResponseHeader.correlationId : ResponseHeader → Int
  | .v0 h => h.correlationId
  | .v1 h => h.correlationId

/-- `ResponseHeader`'s `ToBytes`. -/
def ResponseHeader.toBeBytes : ResponseHeader → List Byte
  | .v0 h => i32ToBytes h.correlationId
  | .v1 h => i32ToBytes h.correlationId ++ compactArrayToBeBytes NullableString.toBeBytes h.tag

/-- `ResponseBody` (`src/protocol/response.rs`). -/
inductive ResponseBody where
  | apiVersionsResponseV4 : ApiVersionsResponseBodyV4 → ResponseBody
  | describeTopicPartiotionsResponseV0 : DescribeTopicPartiotionsResponseBodyV0 → ResponseBody
  | fetchResponseV16 : FetchResponseBodyV16 → ResponseBody
deriving DecidableEq, Repr

/-- `ResponseBody`'s `ToBytes`. -/
def ResponseBody.toBeBytes : ResponseBody → List Byte
  | .apiVersionsResponseV4 b => b.toBeBytes
  | .describeTopicPartiotionsResponseV0 b => b.toBeBytes
  | .fetchResponseV16 b => b.toBeBytes

/-- `ResponseV0` (`src/protocol/response.rs`). -/
structure ResponseV0 where
  messageSize : Int
  header : ResponseHeader
  body : ResponseBody
deriving DecidableEq, Repr

/-- `ResponseV0::to_be_bytes` (`src/protocol/response.rs` lines 38-48):
message size, header bytes, body bytes. -/
def ResponseV0.toBeBytes (r : ResponseV0) : List Byte :=
  i32ToBytes r.messageSize ++ r.header.toBeBytes ++ r.body.toBeBytes

/-- The outcome of opening and fully reading one partition log segment.
Models the file system that `Connection::build_fetch_response` touches via
`File::open` + `read_to_end`, keyed by the topic name and partition id
that the source formats into
`/tmp/kraft-combined-logs/{topic_name}-{partition_id}/00000000000000000000.log`. -/
inductive FileResult where
  | openError : FileResult
  | readError : FileResult
  | contents : List Byte → FileResult
deriving DecidableEq, Repr

/-- The file system as seen by the Fetch handler. -/
abbrev FS := List Byte → Int → FileResult

/-- Rust's `Iterator::map(..).collect::<Vec<_>>()` where the closure may
panic: the panic (modelled by `none`) propagates. -/
def mapOrPanic (f : α → Option β) : List α → Option (List β)
  | [] => some []
  | a :: l => do
    let b ← f a
    let bs ← mapOrPanic f l
    some (b :: bs)

/-- `Connection::build_api_versions_response` (`src/server_async.rs` lines
168-189): versions 0 through 4 get `None` and the three advertised APIs;
anything else gets `UnsupportedVersion` and an empty list; throttle is 0
either way. -/
def Connection.buildApiVersionsResponse (request : RequestV0) : ResponseBody :=
  let version := request.header.requestApiVersion
  if 0 ≤ version ∧ version ≤ 4 then
    .apiVersionsResponseV4
      ⟨.none,
        [⟨.apiVersions, 0, 4, []⟩, ⟨.describeTopicPartitions, 0, 0, []⟩,
          ⟨.fetch, 4, 16, []⟩],
        0, []⟩
  else
    .apiVersionsResponseV4 ⟨.unsupportedVersion, [], 0, []⟩

/-- The closure mapped over the requested topic names in
`Connection::build_describe_topic_partitions_response`
(`src/server_async.rs` lines 200-234).  `none` models the
`as_topic_record().unwrap()` panic, which cannot fire because
`find_topic_records_by_topic` only returns topic records. -/
def Connection.dtpTopicFor (metadata : ClusterMetadata) (topicName : List Byte) :
    Option Response.Topic :=
  match (metadata.findTopicRecordsByTopic topicName).head? with
  | some record =>
    match record.recordValue.value.asTopicRecord with
    | some tv =>
      let topicUuid := tv.topicUuid
      let partitionRecords := metadata.findPartitionRecordsByTopicUuid topicUuid
      some ⟨.none, CompactString.fromStr topicName, topicUuid, false,
        partitionRecords.map Response.Partition.fromPartitionRecord, 0, []⟩
    | none => none
  | none => some (Response.Topic.fromUnknownTopic topicName)

/-- `Connection::build_describe_topic_partitions_response`
(`src/server_async.rs` lines 191-245): one topic result per requested
name, in request order; throttle 0; `next_cursor = u8::MAX`. -/
def Connection.buildDescribeTopicPartitionsResponse (metadata : ClusterMetadata)
    (request : RequestV0) : Option ResponseBody :=
  let topicNames :=
    (request.body.asDescribeTopicPartitionsRequestV0.getD
      DescribeTopicPartitionsRequestV0.defaultVal).topicNames
  (mapOrPanic (Connection.dtpTopicFor metadata) topicNames).map fun topics =>
    .describeTopicPartiotionsResponseV0 ⟨0, topics, 255, []⟩

/-- The first requested topic id of a fetch request
(`request.body().as_fetch_request_v16().unwrap_or(&default()).topics().to_vec().first().unwrap_or(&default()).topic_id()`). -/
def Connection.fetchFirstTopicId (request : RequestV0) : Uuid :=
  (((request.body.asFetchRequestV16.getD FetchRequestV16.defaultVal).topics).head?.getD
    TopicsPartitions.defaultVal).topicId

/-- `Connection::build_fetch_response` (`src/server_async.rs` lines
266-337).  `none` models a panic: the `expect`s on the topic record (which
cannot fire) and the `read_to_end(&mut buf).unwrap()` on a file that opens
but fails to read (which can). -/
def Connection.buildFetchResponse (metadata : ClusterMetadata) (fs : FS)
    (request : RequestV0) : Option ResponseBody :=
  let topicId := Connection.fetchFirstTopicId request
  if topicId = nilUuid then
    some (.fetchResponseV16 FetchResponseBodyV16.defaultVal)
  else
    match (metadata.findTopicRecordsById topicId).head? with
    | none => some (.fetchResponseV16 (FetchResponseBodyV16.unknownTopic topicId))
    | some record =>
      match record.recordValue.value.asTopicRecord with
      | none => none
      | some tv =>
        let topicName := tv.name
        if topicName = [] then
          some (.fetchResponseV16 (FetchResponseBodyV16.emptyTopic topicId))
        else
          match (metadata.findPartitionRecordIdsByTopicUuid topicId).head? with
          | some partitionId =>
            match fs topicName partitionId with
            | .openError => some (.fetchResponseV16 (FetchResponseBodyV16.emptyTopic topicId))
            | .readError => none
            | .contents buf =>
              some (.fetchResponseV16 (FetchResponseBodyV16.withRecordForTopic topicId buf))
          | none => some (.fetchResponseV16 (FetchResponseBodyV16.emptyTopic topicId))

/-- `Connection::build_response_header` (`src/server_async.rs` lines
144-156): header v0 for ApiVersions, v1 for the other two, always
carrying the request's correlation id. -/
def Connection.buildResponseHeader (request : RequestV0) : ResponseHeader :=
  match request.header.requestApiKey with
  | .apiVersions => .v0 ⟨request.header.correlationId⟩
  | .describeTopicPartitions => .v1 ⟨request.header.correlationId, []⟩
  | .fetch => .v1 ⟨request.header.correlationId, []⟩

/-- `Connection::build_response_body` (`src/server_async.rs` lines
158-166). -/
def Connection.buildResponseBody (metadata : ClusterMetadata) (fs : FS)
    (request : RequestV0) : Option ResponseBody :=
  match request.header.requestApiKey with
  | .apiVersions => some (Connection.buildApiVersionsResponse request)
  | .describeTopicPartitions =>
    Connection.buildDescribeTopicPartitionsResponse metadata request
  | .fetch => Connection.buildFetchResponse metadata fs request

/-- `i32` wrapping of an intermediate Rust arithmetic result (release
semantics). -/
def wrap32 (x : Int) : Int := toSigned 32 (toBits 32 x)

/-- `Connection::build_response` (`src/server_async.rs` lines 135-142):
`message_size` is `body.to_be_bytes().len() as i32 +
header.to_be_bytes().len() as i32` (each length cast to `i32`, then a
wrapping `i32` addition). -/
def Connection.buildResponse (metadata : ClusterMetadata) (fs : FS)
    (request : RequestV0) : Option ResponseV0 :=
  (Connection.buildResponseBody metadata fs request).map fun responseBody =>
    let responseHeader := Connection.buildResponseHeader request
    let messageSize :=
      wrap32 (toSigned 32 (responseBody.toBeBytes.length % 2 ^ 32) +
        toSigned 32 (responseHeader.toBeBytes.length % 2 ^ 32))
    ⟨messageSize, responseHeader, responseBody⟩

/-- Requested topic names of a DescribeTopicPartitions request, exactly as
the handler extracts them. -/
def dtpRequestedNames (request : RequestV0) : List (List Byte) :=
  (request.body.asDescribeTopicPartitionsRequestV0.getD
    DescribeTopicPartitionsRequestV0.defaultVal).topicNames

theorem natToBytesBE_length (w n : Nat) : (natToBytesBE w n).length = w := by
  induction w generalizing n with
  | zero => rfl
  | succ w ih => simp [natToBytesBE, ih]

theorem bytesToNatBE_lt (l : List Byte) : bytesToNatBE l < 256 ^ l.length := by
  induction l with
  | nil => simp [bytesToNatBE]
  | cons b t ih =>
    have hb : b.val < 256 := b.isLt
    have : b.val * 256 ^ t.length ≤ 255 * 256 ^ t.length :=
      Nat.mul_le_mul_right _ (by omega)
    simp only [bytesToNatBE, List.length_cons, pow_succ]
    omega

theorem natToBytesBE_bytesToNatBE (l : List Byte) :
    natToBytesBE l.length (bytesToNatBE l) = l := by
  induction l with
  | nil => rfl
  | cons b t ih =>
    have ht : bytesToNatBE t < 256 ^ t.length := bytesToNatBE_lt t
    have hK : 0 < 256 ^ t.length := Nat.pos_pow_of_pos _ (by norm_num)
    have hdiv : (b.val * 256 ^ t.length + bytesToNatBE t) / 256 ^ t.length = b.val := by
      rw [Nat.mul_comm, Nat.mul_add_div hK, Nat.div_eq_of_lt ht]
      omega
    have hmod : (b.val * 256 ^ t.length + bytesToNatBE t) % 256 ^ t.length =
        bytesToNatBE t := by
      rw [Nat.mul_comm, Nat.mul_add_mod, Nat.mod_eq_of_lt ht]
    simp only [bytesToNatBE, List.length_cons, natToBytesBE, hdiv, hmod, ih]
    congr 1
    exact Fin.ext (by simp [mkByte, Nat.mod_eq_of_lt b.isLt])

theorem tryGetBE_ok {w : Nat} {l r : List Byte} {n : Nat}
    (h : tryGetBE w l = .ok (n, r)) :
    l = natToBytesBE w n ++ r ∧ n < 256 ^ w := by
  unfold tryGetBE at h
  split at h
  · next hw =>
    rcases h with ⟨⟩
    have hlen : (l.take w).length = w := by simp [hw]
    have hrt := natToBytesBE_bytesToNatBE (l.take w)
    rw [hlen] at hrt
    constructor
    · rw [hrt]
      exact (List.take_append_drop w l).symm
    · have := bytesToNatBE_lt (l.take w)
      rwa [hlen] at this
  · exact absurd h (by simp)

theorem copyToSlice_ok {n : Nat} {l a r : List Byte}
    (h : copyToSlice n l = .ok (a, r)) : l = a ++ r ∧ a.length = n := by
  unfold copyToSlice at h
  split at h
  · next hn =>
    rcases h with ⟨⟩
    exact ⟨(List.take_append_drop n l).symm, by simp [hn]⟩
  · exact absurd h (by simp)

theorem toBits_toSigned (w n : Nat) : toBits w (toSigned w n) = n % 2 ^ w := by
  unfold toBits toSigned
  have hpow : ((2 : Int) ^ w) = ((2 ^ w : Nat) : Int) := by push_cast; ring
  have h1 : ((n : Int) % ((2 ^ w : Nat) : Int)) = ((n % 2 ^ w : Nat) : Int) := rfl
  have h3 : (((n % 2 ^ w : Nat) : Int) % ((2 ^ w : Nat) : Int)) =
      ((n % 2 ^ w % 2 ^ w : Nat) : Int) := rfl
  split
  · rw [hpow, h1, h3, Nat.mod_mod]
    rfl
  · rw [hpow, Int.emod_sub_cancel, h1, h3, Nat.mod_mod]
    rfl

theorem toSigned_of_lt {w n : Nat} (h : n < 2 ^ (w - 1)) : toSigned w n = n := by
  unfold toSigned
  have hlt : n < 2 ^ w := lt_of_lt_of_le h (Nat.pow_le_pow_right (by norm_num) (by omega))
  rw [if_pos (by rw [Nat.mod_eq_of_lt hlt]; exact h)]
  have hpow : ((2 : Int) ^ w) = ((2 ^ w : Nat) : Int) := by push_cast; ring
  have h1 : ((n : Int) % ((2 ^ w : Nat) : Int)) = ((n % 2 ^ w : Nat) : Int) := rfl
  rw [hpow, h1, Nat.mod_eq_of_lt hlt]

theorem wrap32_eq_of {x : Int} (h0 : 0 ≤ x) (h : x < 2 ^ 31) : wrap32 x = x := by
  unfold wrap32 toBits
  have hx : x % 2 ^ 32 = x := Int.emod_eq_of_lt h0 (by omega)
  rw [hx]
  have hlt : x.toNat < 2 ^ 31 := by omega
  rw [toSigned_of_lt (by simpa using hlt)]
  omega

theorem exceptBind_ok {α β : Type} {x : Except DErr α} {f : α → Except DErr β} {b : β}
    (h : (x >>= f) = .ok b) : ∃ a, x = .ok a ∧ f a = .ok b := by
  cases x with
  | ok a => exact ⟨a, rfl, h⟩
  | error e =>
    have : (Except.error e >>= f) = (Except.error e : Except DErr β) := rfl
    rw [this] at h
    cases h

theorem mapOrPanic_some {α β : Type} {f : α → Option β} :
    ∀ {l : List α} {out : List β}, mapOrPanic f l = some out →
      out.length = l.length ∧
        ∀ i (h : i < l.length) (h2 : i < out.length), f l[i] = some out[i] := by
  intro l
  induction l with
  | nil =>
    intro out h
    rcases h with ⟨⟩
    refine ⟨rfl, ?_⟩
    intro i h
    exact absurd h (by simp)
  | cons a t ih =>
    intro out h
    unfold mapOrPanic at h
    cases hb : f a with
    | none => rw [hb] at h; cases h
    | some b =>
      rw [hb] at h
      cases hbs : mapOrPanic f t with
      | none => rw [hbs] at h; cases h
      | some bs =>
        rw [hbs] at h
        have hout : out = b :: bs := by
          have : (some b >>= fun b => some bs >>= fun bs => some (b :: bs)) =
              some (b :: bs) := rfl
          rw [this] at h
          exact (Option.some.injEq _ _ ▸ h).symm
        subst hout
        obtain ⟨hlen, hidx⟩ := ih hbs
        refine ⟨by simp [hlen], ?_⟩
        intro i hi h2
        cases i with
        | zero => simpa using hb
        | succ j =>
          simp only [List.getElem_cons_succ]
          exact hidx j (by simpa using hi) (by simpa using h2)

/-- A sample topic UUID (non-nil). -/
def uuidU : Uuid := List.replicate 15 (0 : Byte) ++ [(1 : Byte)]

/-- A second sample topic UUID (non-nil). -/
def uuidV : Uuid := List.replicate 15 (0 : Byte) ++ [(2 : Byte)]

/-- The UTF-8 bytes of `"bar"`. -/
def nameBar : List Byte := [98, 97, 114]

/-- The UTF-8 bytes of `"baz"`. -/
def nameBaz : List Byte := [98, 97, 122]

/-- The UTF-8 bytes of `"foo"`. -/
def nameFoo : List Byte := [102, 111, 111]

/-- A topic record for `"bar"` with UUID `uuidU`. -/
def recTopicBar : Record := ⟨0, 0, 0, 0, [], ⟨0, 2, 0, .topic ⟨nameBar, uuidU, 0⟩⟩, 0⟩

/-- A topic record for `"baz"` with UUID `uuidV`. -/
def recTopicBaz : Record := ⟨0, 0, 0, 0, [], ⟨0, 2, 0, .topic ⟨nameBaz, uuidV, 0⟩⟩, 0⟩

/-- A partition record: partition 0 of `uuidU`, leader 1, replicas/ISR `[1]`. -/
def recPart0 : Record :=
  ⟨0, 0, 0, 0, [], ⟨0, 3, 0, .partition ⟨0, uuidU, [1], [1], [], [], 1, 0, 0, [], 0⟩⟩, 0⟩

/-- A partition record: partition 1 of `uuidU`. -/
def recPart1 : Record :=
  ⟨0, 0, 0, 0, [], ⟨0, 3, 0, .partition ⟨1, uuidU, [1], [1], [], [], 1, 0, 0, [], 0⟩⟩, 0⟩

/-- A partition record: partition 5 of `uuidV` (deliberately non-zero). -/
def recPart5 : Record :=
  ⟨0, 0, 0, 0, [], ⟨0, 3, 0, .partition ⟨5, uuidV, [1], [1], [], [], 1, 0, 0, [], 0⟩⟩, 0⟩

/-- A sample metadata index: topics `"bar"` (two partitions) and `"baz"`
(one partition, id 5). -/
def sampleMeta : ClusterMetadata :=
  ⟨[⟨0, 0, 0, 2, 0, 0, 0, 0, 0, 0, 0, 0,
      [recTopicBar, recTopicBaz, recPart0, recPart1, recPart5]⟩]⟩

/-- An ApiVersions request with the given `request_api_version`. -/
def apiVersionsRequest (version : Int) : RequestV0 :=
  ⟨0, ⟨.apiVersions, version, 1701, ⟨none⟩, []⟩,
    .apiVersionsRequestV4 ⟨⟨[]⟩, ⟨[]⟩, []⟩⟩

/-- A DescribeTopicPartitions request for `"bar"` then `"foo"`. -/
def dtpRequestBarFoo : RequestV0 :=
  ⟨0, ⟨.describeTopicPartitions, 0, 42, ⟨none⟩, []⟩,
    .describeTopicPartitionsRequestV0 ⟨[⟨⟨nameBar⟩, []⟩, ⟨⟨nameFoo⟩, []⟩], 1, 255, []⟩⟩

/-- A Fetch request for topic `uuidV`. -/
def fetchRequestV : RequestV0 :=
  ⟨0, ⟨.fetch, 16, 43, ⟨none⟩, []⟩,
    .fetchRequestV16 ⟨500, 1, 1048576, 0, 0, 0, [⟨uuidV, [], []⟩], [], ⟨[]⟩⟩⟩

/-- A file system whose every file yields the same outcome. -/
def fsConst (res : FileResult) : FS := fun _ _ => res

/-- C1: for every ApiVersions request, a `request_api_version` in `[0, 4]`
yields `error_code = None (0)` and exactly the advertised set
`{(18, 0, 4), (75, 0, 0), (1, 4, 16)}`; every other version yields
`error_code = UnsupportedVersion (35)` and an empty `api_versions` array;
`throttle_time_ms = 0` in both cases. -/
theorem c1_apiVersions_supported_and_unsupported (request : RequestV0) :
    (ErrorCode.none.code = 0 ∧ ErrorCode.unsupportedVersion.code = 35 ∧
      ApiKey.apiVersions.code = 18 ∧ ApiKey.describeTopicPartitions.code = 75 ∧
      ApiKey.fetch.code = 1) ∧
    ((0 ≤ request.header.requestApiVersion ∧ request.header.requestApiVersion ≤ 4) →
      Connection.buildApiVersionsResponse request =
        .apiVersionsResponseV4
          ⟨.none,
            [⟨.apiVersions, 0, 4, []⟩, ⟨.describeTopicPartitions, 0, 0, []⟩,
              ⟨.fetch, 4, 16, []⟩],
            0, []⟩) ∧
    (¬(0 ≤ request.header.requestApiVersion ∧ request.header.requestApiVersion ≤ 4) →
      Connection.buildApiVersionsResponse request =
        .apiVersionsResponseV4 ⟨.unsupportedVersion, [], 0, []⟩) := by
  refine ⟨⟨rfl, rfl, rfl, rfl, rfl⟩, ?_, ?_⟩ <;>
    intro h <;> simp [Connection.buildApiVersionsResponse, h]

/-- Witness for C1 at `request_api_version = 4` and `= 99`. -/
theorem c1_apiVersions_witness :
    Connection.buildApiVersionsResponse (apiVersionsRequest 4) =
      .apiVersionsResponseV4
        ⟨.none,
          [⟨.apiVersions, 0, 4, []⟩, ⟨.describeTopicPartitions, 0, 0, []⟩,
            ⟨.fetch, 4, 16, []⟩],
          0, []⟩ ∧
    Connection.buildApiVersionsResponse (apiVersionsRequest 99) =
      .apiVersionsResponseV4 ⟨.unsupportedVersion, [], 0, []⟩ :=
  ⟨(c1_apiVersions_supported_and_unsupported (apiVersionsRequest 4)).2.1 (by decide),
    (c1_apiVersions_supported_and_unsupported (apiVersionsRequest 99)).2.2 (by decide)⟩

/-- C3: every response the server builds carries the triggering request's
`correlation_id` unchanged in its header. -/
theorem c3_correlation_id_preserved (metadata : ClusterMetadata) (fs : FS)
    (request : RequestV0) (response : ResponseV0)
    (h : Connection.buildResponse metadata fs request = some response) :
    response.header.correlationId = request.header.correlationId := by
  unfold Connection.buildResponse at h
  cases hb : Connection.buildResponseBody metadata fs request with
  | none => rw [hb] at h; cases h
  | some body =>
    rw [hb] at h
    simp only [Option.map, Option.some.injEq] at h
    subst h
    unfold Connection.buildResponseHeader
    cases request.header.requestApiKey <;> rfl

/-- The response the server builds for `apiVersionsRequest 4`. -/
def respAv4 : ResponseV0 :=
  (Connection.buildResponse sampleMeta (fsConst .openError) (apiVersionsRequest 4)).getD
    ⟨0, .v0 ⟨0⟩, .apiVersionsResponseV4 ⟨.none, [], 0, []⟩⟩

/-- Witness for C3: an ApiVersions request with correlation id 1701. -/
theorem c3_correlation_id_witness :
    Connection.buildResponse sampleMeta (fsConst .openError) (apiVersionsRequest 4) =
      some respAv4 ∧
    respAv4.header.correlationId = 1701 :=
  ⟨rfl,
    (c3_correlation_id_preserved sampleMeta (fsConst .openError) (apiVersionsRequest 4)
      respAv4 rfl).trans rfl⟩

/-- C4: `ApiKey::from_be_bytes` as committed accepts only 18 and 75; the
key 1 (Fetch) that the claim, the spec and the rest of the source expect
to be accepted is rejected with `UnsupportedApiKey{1}`. -/
theorem c4_apiKey_decode_on_key_one :
    ApiKey.fromBeBytes (i16ToBytes 1) = .error (.unsupportedApiKey 1) ∧
    ApiKey.fromBeBytes (i16ToBytes 18) = .ok (.apiVersions, []) ∧
    ApiKey.fromBeBytes (i16ToBytes 75) = .ok (.describeTopicPartitions, []) := by
  refine ⟨rfl, rfl, rfl⟩

/-- C7: a `COMPACT_ARRAY` whose encoded length byte is `0x00` decodes to
the empty array (for any element decoder and any following bytes), but a
`COMPACT_STRING` whose encoded length byte is `0x00` does NOT decode to
the empty string: the `u32` length underflows to `4294967295` and the
decode panics. -/
theorem c7_compact_zero_length_byte :
    compactArrayFromBeBytes int32FromBeBytes [(0 : Byte)] = .ok ([], []) ∧
    compactArrayFromBeBytes NullableString.fromBeBytes [(0 : Byte), (7 : Byte)] =
      .ok ([], [(7 : Byte)]) ∧
    CompactString.fromBeBytes [(0 : Byte)] = .error .panic ∧
    CompactString.fromBeBytes [(1 : Byte)] = .ok (⟨[]⟩, []) :=
  ⟨rfl, rfl, rfl, rfl⟩

/-- C8: a `NULLABLE_STRING` or `COMPACT_STRING` whose length prefix claims
more bytes than the buffer carries makes the decoder panic (the modelled
`copy_to_slice` assertion), not return a `MalformedFrame`-style error. -/
theorem c8_length_overrun_panics :
    NullableString.fromBeBytes ([0, 5] : List Byte) = .error .panic ∧
    CompactString.fromBeBytes [(2 : Byte)] = .error .panic := by
  refine ⟨rfl, rfl⟩

/-- C2: for every response the server builds, the `message_size` field
equals the byte length of the encoded header concatenated with the encoded
body (stated under the machine-arithmetic side condition that this length
fits in an `i32`, which the wrapping casts in `build_response` require),
and the response frame is exactly that field followed by those bytes. -/
theorem c2_message_size_exact (metadata : ClusterMetadata) (fs : FS)
    (request : RequestV0) (response : ResponseV0)
    (h : Connection.buildResponse metadata fs request = some response)
    (hsmall : response.header.toBeBytes.length + response.body.toBeBytes.length < 2 ^ 31) :
    response.messageSize =
      ((response.header.toBeBytes ++ response.body.toBeBytes).length : Int) ∧
    response.toBeBytes =
      i32ToBytes response.messageSize ++
        (response.header.toBeBytes ++ response.body.toBeBytes) := by
  unfold Connection.buildResponse at h
  cases hb : Connection.buildResponseBody metadata fs request with
  | none => rw [hb] at h; cases h
  | some body =>
    rw [hb] at h
    simp only [Option.map, Option.some.injEq] at h
    subst h
    simp only at hsmall ⊢
    constructor
    · set hl := (Connection.buildResponseHeader request).toBeBytes.length with hhl
      set bl := body.toBeBytes.length with hbl
      have h1 : bl % 2 ^ 32 = bl := Nat.mod_eq_of_lt (by omega)
      have h2 : hl % 2 ^ 32 = hl := Nat.mod_eq_of_lt (by omega)
      rw [h1, h2, toSigned_of_lt (n := bl) (by simp; omega),
        toSigned_of_lt (n := hl) (by simp; omega),
        wrap32_eq_of (by positivity) (by push_cast; omega)]
      simp [List.length_append]
      ring
    · simp [ResponseV0.toBeBytes, List.append_assoc]

/-- Witness for C2: the concrete ApiVersions response `respAv4`. -/
theorem c2_message_size_witness :
    Connection.buildResponse sampleMeta (fsConst .openError) (apiVersionsRequest 4) =
      some respAv4 ∧
    respAv4.messageSize =
      ((respAv4.header.toBeBytes ++ respAv4.body.toBeBytes).length : Int) :=
  ⟨rfl,
    (c2_message_size_exact sampleMeta (fsConst .openError) (apiVersionsRequest 4)
      respAv4 rfl (by decide)).1⟩

/-- C5: a DescribeTopicPartitions response has throttle 0, cursor `0xFF`,
and one topic result per requested name in request order: a name with no
topic record yields the `from_unknown_topic` result
(`UnknownTopicOrPartition (3)`, nil UUID, `is_internal = 0`, no
partitions, `authorized_operations = 0`); a found name yields `None (0)`,
the record's UUID, and one partition result per partition record of that
UUID carrying id, leader, leader epoch and replica/ISR arrays verbatim
with `eligible_leader_replicas`, `last_known_elr` and `offline_replicas`
zero. -/
theorem c5_dtp_response (metadata : ClusterMetadata) (request : RequestV0)
    (t : DescribeTopicPartiotionsResponseBodyV0)
    (h : Connection.buildDescribeTopicPartitionsResponse metadata request =
      some (.describeTopicPartiotionsResponseV0 t)) :
    t.throttleTimeMs = 0 ∧ t.nextCursor = 255 ∧
    t.topics.length = (dtpRequestedNames request).length ∧
    (∀ i (h1 : i < (dtpRequestedNames request).length) (h2 : i < t.topics.length),
      ((metadata.findTopicRecordsByTopic (dtpRequestedNames request)[i]).head? = none →
        t.topics[i] = Response.Topic.fromUnknownTopic (dtpRequestedNames request)[i]) ∧
      (∀ record tv,
        (metadata.findTopicRecordsByTopic (dtpRequestedNames request)[i]).head? =
          some record →
        record.recordValue.value = .topic tv →
        t.topics[i] =
          ⟨.none, CompactString.fromStr (dtpRequestedNames request)[i], tv.topicUuid,
            false,
            (metadata.findPartitionRecordsByTopicUuid tv.topicUuid).map
              Response.Partition.fromPartitionRecord, 0, []⟩)) ∧
    (∀ n, Response.Topic.fromUnknownTopic n =
      ⟨.unknownTopicOrPartition, ⟨n⟩, nilUuid, false, [], 0, []⟩) ∧
    (∀ p, Response.Partition.fromPartitionRecord p =
      ⟨.none, p.partitionId, p.leader, p.leaderEpoch, p.replicaArray,
        p.inSyncReplicaArray, 0, 0, 0, 0⟩) ∧
    ErrorCode.unknownTopicOrPartition.code = 3 ∧ ErrorCode.none.code = 0 := by
  unfold Connection.buildDescribeTopicPartitionsResponse at h
  unfold dtpRequestedNames
  cases hm : mapOrPanic (Connection.dtpTopicFor metadata)
      (request.body.asDescribeTopicPartitionsRequestV0.getD
        DescribeTopicPartitionsRequestV0.defaultVal).topicNames with
  | none => simp only [hm, Option.map] at h; cases h
  | some topics =>
    simp only [hm, Option.map, Option.some.injEq,
      ResponseBody.describeTopicPartiotionsResponseV0.injEq] at h
    subst h
    obtain ⟨hlen, hidx⟩ := mapOrPanic_some hm
    refine ⟨rfl, rfl, hlen, ?_, fun _ => rfl, fun _ => rfl, rfl, rfl⟩
    intro i h1 h2
    have hf := hidx i h1 (by omega)
    constructor
    · intro hnone
      unfold Connection.dtpTopicFor at hf
      rw [hnone] at hf
      simp only [Option.some.injEq] at hf
      exact hf.symm
    · intro record tv hsome hv
      unfold Connection.dtpTopicFor at hf
      rw [hsome] at hf
      simp only [hv, RecordValueByType.asTopicRecord, Option.some.injEq] at hf
      exact hf.symm

/-- The DescribeTopicPartitions body built for `dtpRequestBarFoo` over
`sampleMeta`: `"bar"` found with two partitions, `"foo"` unknown. -/
def dtpOutW : DescribeTopicPartiotionsResponseBodyV0 :=
  ⟨0,
    [⟨.none, ⟨nameBar⟩, uuidU, false,
      [⟨.none, 0, 1, 0, [1], [1], 0, 0, 0, 0⟩, ⟨.none, 1, 1, 0, [1], [1], 0, 0, 0, 0⟩],
      0, []⟩,
      ⟨.unknownTopicOrPartition, ⟨nameFoo⟩, nilUuid, false, [], 0, []⟩],
    255, []⟩

/-- Witness for C5: `sampleMeta` with requested names `["bar", "foo"]`. -/
theorem c5_dtp_witness :
    Connection.buildDescribeTopicPartitionsResponse sampleMeta dtpRequestBarFoo =
      some (.describeTopicPartiotionsResponseV0 dtpOutW) ∧
    dtpOutW.topics.length = 2 ∧ dtpOutW.nextCursor = 255 ∧
    dtpOutW.topics.getD 1 (Response.Topic.fromUnknownTopic []) =
      Response.Topic.fromUnknownTopic nameFoo := by
  have hc := c5_dtp_response sampleMeta dtpRequestBarFoo dtpOutW rfl
  refine ⟨rfl, hc.2.2.1.trans rfl, hc.2.1, ?_⟩
  have hidx := (hc.2.2.2.1 1 (by decide) (by decide)).1 rfl
  rw [List.getD_eq_getElem _ _ (by decide)]
  exact hidx.trans rfl

/-- C10: whenever the Fetch handler answers from a partition log segment
(topic found, non-empty name, at least one partition record id, file read
returns bytes), the single partition entry has `partition_index = 0`,
`high_watermark = 0`, `last_stable_offset = 0`, `log_start_offset = 0`,
`preferred_read_replica = 0` and no aborted transactions — regardless of
the partition record id `pid` used to choose the log file. -/
theorem c10_fetch_partition_fields_zero (metadata : ClusterMetadata) (fs : FS)
    (request : RequestV0) (tid : Uuid) (record : Record) (rs : List Record)
    (tv : TopicRecordValue) (pid : Int) (pids : List Int) (buf : List Byte)
    (htid : Connection.fetchFirstTopicId request = tid)
    (hnil : tid ≠ nilUuid)
    (hrec : metadata.findTopicRecordsById tid = record :: rs)
    (htv : record.recordValue.value = .topic tv)
    (hname : tv.name ≠ [])
    (hpids : metadata.findPartitionRecordIdsByTopicUuid tid = pid :: pids)
    (hfs : fs tv.name pid = .contents buf) :
    Connection.buildFetchResponse metadata fs request =
      some (.fetchResponseV16
        ⟨0, .none, 0, [⟨tid, [⟨0, .none, 0, 0, 0, [], 0, buf, []⟩], []⟩], []⟩) := by
  unfold Connection.buildFetchResponse
  simp only [htid, hrec, List.head?, htv, RecordValueByType.asTopicRecord, hpids, hfs]
  rw [if_neg hnil, if_neg hname]
  rfl

/-- A Fetch request whose topic id `uuidW` has no record in `sampleMeta`. -/
def uuidW : Uuid := List.replicate 15 (0 : Byte) ++ [(3 : Byte)]

/-- A Fetch request for the unknown topic id `uuidW`. -/
def fetchRequestW : RequestV0 :=
  ⟨0, ⟨.fetch, 16, 44, ⟨none⟩, []⟩,
    .fetchRequestV16 ⟨500, 1, 1048576, 0, 0, 0, [⟨uuidW, [], []⟩], [], ⟨[]⟩⟩⟩

/-- A Fetch request with no requested topics (nil first topic id). -/
def fetchRequestNil : RequestV0 :=
  ⟨0, ⟨.fetch, 16, 45, ⟨none⟩, []⟩, .fetchRequestV16 FetchRequestV16.defaultVal⟩

/-- Witness for C10: partition record id 5 (non-zero) still yields
`partition_index = 0` and all-zero watermarks/offsets. -/
theorem c10_fetch_partition_witness :
    Connection.buildFetchResponse sampleMeta (fsConst (.contents [9, 9])) fetchRequestV =
      some (.fetchResponseV16
        ⟨0, .none, 0, [⟨uuidV, [⟨0, .none, 0, 0, 0, [], 0, [9, 9], []⟩], []⟩], []⟩) ∧
    (5 : Int) ≠ 0 :=
  ⟨c10_fetch_partition_fields_zero sampleMeta (fsConst (.contents [9, 9])) fetchRequestV
      uuidV recTopicBaz [] ⟨nameBaz, uuidV, 0⟩ 5 [] [9, 9]
      rfl (by decide) rfl rfl (by decide) rfl rfl,
    by decide⟩

/-- C6: the Fetch handler's four paths at concrete inputs.  A nil (or
absent) topic id yields the default response; an unknown topic id yields
one `UnknownTopic (100)` partition with no records; a failed `File::open`
degrades to the empty-records shape; but a file that OPENS and then fails
to READ makes `read_to_end(&mut buf).unwrap()` panic (modelled `none`) —
no response is built, contradicting the claim that every file error on
this path degrades to empty records. -/
theorem c6_fetch_error_paths :
    Connection.buildFetchResponse sampleMeta (fsConst .readError) fetchRequestV = none ∧
    Connection.buildFetchResponse sampleMeta (fsConst .openError) fetchRequestV =
      some (.fetchResponseV16 (FetchResponseBodyV16.emptyTopic uuidV)) ∧
    Connection.buildFetchResponse sampleMeta (fsConst .readError) fetchRequestNil =
      some (.fetchResponseV16 FetchResponseBodyV16.defaultVal) ∧
    Connection.buildFetchResponse sampleMeta (fsConst .readError) fetchRequestW =
      some (.fetchResponseV16 (FetchResponseBodyV16.unknownTopic uuidW)) ∧
    ErrorCode.unknownTopic.code = 100 :=
  ⟨rfl, rfl, rfl, rfl, rfl⟩

theorem exceptMap_ok {α β : Type} {x : Except DErr α} {f : α → β} {b : β}
    (h : x.map f = .ok b) : ∃ a, x = .ok a ∧ f a = b := by
  cases x with
  | ok a =>
    refine ⟨a, rfl, ?_⟩
    have h2 : (Except.ok (f a) : Except DErr β) = .ok b := h
    injection h2
  | error e =>
    have h2 : (Except.error e : Except DErr β) = .ok b := h
    cases h2

theorem take_of_prefix {α : Type} {p x y : List α} {n : Nat} (hp : p.length = n) :
    (p ++ x).take n = (p ++ y).take n := by
  rw [← hp, List.take_left, List.take_left]

/-- Inversion for the signed fixed-width readers: the consumed bytes are
recovered by re-encoding the parsed value. -/
theorem tryGetSigned_ok {w8 w : Nat} (hw : 2 ^ w8 = 256 ^ w) {l r : List Byte} {v : Int}
    (h : (tryGetBE w l).map (fun p => (toSigned w8 p.1, p.2)) = .ok (v, r)) :
    l = natToBytesBE w (toBits w8 v) ++ r := by
  obtain ⟨⟨n, r'⟩, hg, hf⟩ := exceptMap_ok h
  have hf' : (toSigned w8 n, r') = (v, r) := hf
  obtain ⟨hl, hn⟩ := tryGetBE_ok hg
  injection hf' with hv hr
  subst hv hr
  rw [toBits_toSigned, Nat.mod_eq_of_lt (by rw [hw]; exact hn)]
  exact hl

/-- Inversion for `crc_checksum`: the four consumed bytes re-encode the
value, which is the CRC-32C of what remains. -/
theorem crcChecksum_ok {l r : List Byte} {c : Nat} (h : crcChecksum l = .ok (c, r)) :
    l = natToBytesBE 4 c ++ r ∧ crc32c r = c := by
  unfold crcChecksum at h
  obtain ⟨⟨crcread, rr⟩, hc1, hc2⟩ := exceptBind_ok h
  have hc2' : (if crc32c rr = crcread then (Except.ok (crc32c rr, rr) :
      Except DErr (Nat × List Byte)) else .error .malformed) = .ok (c, r) := hc2
  obtain ⟨hl, _⟩ := tryGetBE_ok hc1
  by_cases hcond : crc32c rr = crcread
  · rw [if_pos hcond] at hc2'
    have hc3 : ((crc32c rr, rr) : Nat × List Byte) = (c, r) := by injection hc2'
    injection hc3 with hcv hrr
    subst hcv hrr
    rw [hcond]
    exact ⟨hl, rfl⟩
  · rw [if_neg hcond] at hc2'
    cases hc2'

set_option maxHeartbeats 2000000 in
/-- C9: if `Batch::try_from` succeeds on an input, re-serializing the
parsed batch with `Batch::to_be_bytes` (which also re-serializes each of
its records) reproduces the original input bytes up to the CRC-protected
region — the 21 bytes `base_offset ++ batch_length ++
partition_leader_epoch ++ magic ++ crc` that precede the `attributes`
field where the CRC-protected region starts. -/
theorem c9_batch_reserialize_prefix (input : List Byte) (batch : Batch)
    (rest : List Byte) (h : Batch.tryFrom input = .ok (batch, rest)) :
    batch.toBeBytes.take 21 = input.take 21 := by
  unfold Batch.tryFrom at h
  obtain ⟨⟨bo, r1⟩, h1, h⟩ := exceptBind_ok h
  obtain ⟨⟨blen, r2⟩, h2, h⟩ := exceptBind_ok h
  obtain ⟨⟨sub, rest'⟩, h3, h⟩ := exceptBind_ok h
  obtain ⟨⟨ple, s1⟩, h4, h⟩ := exceptBind_ok h
  obtain ⟨⟨magic, s2⟩, h5, h⟩ := exceptBind_ok h
  obtain ⟨⟨crc, s3⟩, h6, h⟩ := exceptBind_ok h
  obtain ⟨⟨attributes, s4⟩, h7, h⟩ := exceptBind_ok h
  obtain ⟨⟨lastOffsetDelta, s5⟩, h8, h⟩ := exceptBind_ok h
  obtain ⟨⟨baseTimestamp, s6⟩, h9, h⟩ := exceptBind_ok h
  obtain ⟨⟨maxTimestamp, s7⟩, h10, h⟩ := exceptBind_ok h
  obtain ⟨⟨producerId, s8⟩, h11, h⟩ := exceptBind_ok h
  obtain ⟨⟨producerEpoch, s9⟩, h12, h⟩ := exceptBind_ok h
  obtain ⟨⟨baseSequence, s10⟩, h13, h⟩ := exceptBind_ok h
  obtain ⟨⟨recordsLength, s11⟩, h14, h⟩ := exceptBind_ok h
  obtain ⟨⟨records, s12⟩, h15, h⟩ := exceptBind_ok h
  have hh : (Except.ok
      ((⟨bo, blen, ple, magic, crc, attributes, lastOffsetDelta, baseTimestamp,
        maxTimestamp, producerId, producerEpoch, baseSequence, records⟩ : Batch), rest') :
      Except DErr (Batch × List Byte)) = .ok (batch, rest) := h
  have hh2 : ((⟨bo, blen, ple, magic, crc, attributes, lastOffsetDelta, baseTimestamp,
      maxTimestamp, producerId, producerEpoch, baseSequence, records⟩ : Batch), rest') =
      ((batch, rest) : Batch × List Byte) := by injection hh
  injection hh2 with hbatch hrest
  subst hrest
  have e1 : input = natToBytesBE 8 (toBits 64 bo) ++ r1 := tryGetSigned_ok (by norm_num) h1
  have e2 : r1 = natToBytesBE 4 (toBits 32 blen) ++ r2 := tryGetSigned_ok (by norm_num) h2
  obtain ⟨e3, -⟩ := copyToSlice_ok h3
  have e4 : sub = natToBytesBE 4 (toBits 32 ple) ++ s1 := tryGetSigned_ok (by norm_num) h4
  obtain ⟨e5, -⟩ := tryGetBE_ok h5
  obtain ⟨e6, -⟩ := crcChecksum_ok h6
  rw [← hbatch]
  simp only [Batch.toBeBytes, i64ToBytes, i32ToBytes, u8ToBytes, u32ToBytes]
  rw [e1, e2, e3, e4, e5, e6]
  have hform : ∀ x : List Byte,
      natToBytesBE 8 (toBits 64 bo) ++ (natToBytesBE 4 (toBits 32 blen) ++
        (natToBytesBE 4 (toBits 32 ple) ++ (natToBytesBE 1 magic ++
          (natToBytesBE 4 crc ++ x)))) =
      (natToBytesBE 8 (toBits 64 bo) ++ natToBytesBE 4 (toBits 32 blen) ++
        natToBytesBE 4 (toBits 32 ple) ++ natToBytesBE 1 magic ++
        natToBytesBE 4 crc) ++ x := by
    intro x
    simp [List.append_assoc]
  have hp : (natToBytesBE 8 (toBits 64 bo) ++ natToBytesBE 4 (toBits 32 blen) ++
      natToBytesBE 4 (toBits 32 ple) ++ natToBytesBE 1 magic ++
      natToBytesBE 4 crc).length = 21 := by
    simp [natToBytesBE_length]
  simp only [List.append_assoc]
  rw [hform, hform]
  exact take_of_prefix hp

/-- The CRC-32C of the 40 zero bytes forming the witness batch's
CRC-protected region. -/
def crcZeros40 : Nat := crc32c (List.replicate 40 (0 : Byte))

/-- A concrete well-formed zero-record batch frame: base offset 0, batch
length 49, magic 2, correct CRC, all remaining fields zero. -/
def batchInputW : List Byte :=
  i64ToBytes 0 ++ i32ToBytes 49 ++ i32ToBytes 0 ++ u8ToBytes 2 ++
    u32ToBytes crcZeros40 ++ List.replicate 40 (0 : Byte)

/-- The batch parsed from `batchInputW`. -/
def batchW : Batch := ⟨0, 49, 0, 2, crcZeros40, 0, 0, 0, 0, 0, 0, 0, []⟩

set_option maxRecDepth 100000 in
/-- Witness for C9: parsing `batchInputW` succeeds and the re-serialized
bytes agree with the input on the first 21 bytes. -/
theorem c9_batch_witness :
    Batch.tryFrom batchInputW = .ok (batchW, []) ∧
    batchW.toBeBytes.take 21 = batchInputW.take 21 :=
  ⟨rfl, c9_batch_reserialize_prefix batchInputW batchW [] rfl⟩
